import Mathlib

/-!
Verification of the SIU face-recognition core against its specification.

The embedding follows the final versions of the modules (the ones carrying
the multi-source loader, the count-keyed matcher cache and the 1500 ms
debounce window): the vision engine (`loadModels`, `updateFaceMatcher`,
`detectFacesReal`) and the state hook (`removeSampleFromProfile`, `addLog`).
JavaScript numbers are modelled as rationals (`ℚ`), timestamps as rationals,
array indices passed to `splice` as integers.
-/

/-- Identity profile record: `{id, name, images, createdAt, descriptors}`
(src/types.ts, `PersonProfile`). -/
structure PersonProfile where
  id : String
  name : String
  images : List String
  createdAt : ℚ
  descriptors : List (List ℚ)
deriving DecidableEq, Repr

/-- Recognition log entry: `{id, timestamp, personName, confidence, isUnknown}`
(src/types.ts, `RecognitionLog`). -/
structure RecognitionLog where
  id : String
  timestamp : ℚ
  personName : String
  confidence : ℚ
  isUnknown : Bool
deriving DecidableEq, Repr

/-- The identification fields of one `FaceDetection` result
(src/types.ts, `FaceDetection`; the bounding box and the optional
demographics fields are not modelled — no claim concerns them). -/
structure MatchResult where
  identified : Bool
  name : String
  confidence : ℤ
deriving DecidableEq, Repr

/-! ## Descriptor Store (useFaceSystem hook) -/

/-- JavaScript `arr.splice(index, 1)` restricted to its effect on the array:
a negative index counts from the end (clamped at 0), an index at or past the
length removes nothing, otherwise the single element at the index is removed. -/
def spliceRemoveOne {α : Type} (l : List α) (index : ℤ) : List α :=
  let len : ℤ := l.length
  let start : ℕ := (if index < 0 then max (len + index) 0 else min index len).toNat
  l.take start ++ l.drop (start + 1)

/-- The hook operation `removeSampleFromProfile(profileId, index)`: maps over
the profile collection and, on the matching id, splices one entry out of both
the image list and the descriptor list at the given index. -/
def removeSampleFromProfile (profiles : List PersonProfile) (profileId : String)
    (index : ℤ) : List PersonProfile :=
  profiles.map fun p =>
    if p.id = profileId then
      { p with
        images := spliceRemoveOne p.images index
        descriptors := spliceRemoveOne p.descriptors index }
    else p

/-! ## Event Debouncer and recognition log (`addLog`) -/

/-- The debounce condition of `addLog`: the incoming event is dropped when the
log is non-empty and its head (the most recent admitted event) carries the same
`personName` and lies less than the window before the incoming timestamp. -/
def debounceHit (window : ℚ) (log : RecognitionLog)
    (prev : List RecognitionLog) : Bool :=
  match prev with
  | [] => false
  | last :: _ =>
    decide (last.personName = log.personName ∧ log.timestamp - last.timestamp < window)

/-- The hook operation `addLog`: suppress a duplicate within the window,
otherwise prepend the event and keep only the first 200 entries
(`[log, ...prev].slice(0, 200)`). The deployed window is 1500 ms. -/
def addLog (window : ℚ) (log : RecognitionLog)
    (prev : List RecognitionLog) : List RecognitionLog :=
  if debounceHit window log prev then prev
  else (log :: prev).take 200

/-- The debounce window hard-coded in the hook (milliseconds). -/
def WINDOW_MS : ℚ := 1500

/-- Log states reachable by the hook: the log starts empty and every update
goes through `addLog` with the deployed window. -/
inductive ReachableLog : List RecognitionLog → Prop where
  | nil : ReachableLog []
  | step (log : RecognitionLog) {l : List RecognitionLog} :
      ReachableLog l → ReachableLog (addLog WINDOW_MS log l)

/-! ## Matcher Cache and Classifier (vision engine) -/

/-- One `faceapi.LabeledFaceDescriptors(name, vectors)` record: an identity label
bundled with its feature vectors. -/
structure LabeledDescriptors where
  label : String
  vectors : List (List ℚ)
deriving DecidableEq, Repr

/-- A constructed `faceapi.FaceMatcher`: the labeled descriptor sets it was
built from together with the distance threshold passed at construction. -/
structure FaceMatcher where
  labeled : List LabeledDescriptors
  threshold : ℚ
deriving DecidableEq, Repr

/-- The value `profiles.reduce((acc, p) => acc + p.descriptors.length, 0)`: the total
vector count across all profiles, the staleness key of the matcher cache. -/
def totalDescriptorCount (profiles : List PersonProfile) : ℕ :=
  profiles.foldl (fun acc p => acc + p.descriptors.length) 0

/-- The `labeledDescriptors` array built by `updateFaceMatcher`: every profile
holding at least one descriptor contributes one labeled set, in profile order;
profiles without descriptors are skipped. -/
def buildLabeledDescriptors (profiles : List PersonProfile) : List LabeledDescriptors :=
  (profiles.filter fun p => 0 < p.descriptors.length).map
    fun p => { label := p.name, vectors := p.descriptors }

/-- The module-level singleton state of the matcher cache:
`faceMatcher` (initially `null`) and `lastDescriptorCount` (initially `-1`). -/
structure MatcherState where
  faceMatcher : Option FaceMatcher
  lastDescriptorCount : ℤ
deriving DecidableEq, Repr

/-- The matcher cache state at module load. -/
def initialMatcherState : MatcherState :=
  { faceMatcher := none, lastDescriptorCount := -1 }

/-- The cache update `updateFaceMatcher(profiles, threshold)` as a state transition. `loaded`
is the `faceapi && isCriticalModelsLoaded` guard: when false the function
returns at once. Otherwise, when the current total descriptor count equals
`lastDescriptorCount` and a matcher is cached, the state is kept; else the
labeled sets are rebuilt, the matcher becomes `null` exactly when no profile
has a descriptor, and the count is recorded. -/
def updateFaceMatcher (loaded : Bool) (s : MatcherState)
    (profiles : List PersonProfile) (threshold : ℚ) : MatcherState :=
  if !loaded then s
  else if (totalDescriptorCount profiles : ℤ) = s.lastDescriptorCount
          ∧ s.faceMatcher.isSome then s
  else
    let lds := buildLabeledDescriptors profiles
    { faceMatcher := if 0 < lds.length then some { labeled := lds, threshold := threshold }
                     else none
      lastDescriptorCount := (totalDescriptorCount profiles : ℤ) }

/-- Matcher-cache states reachable from module load through
`updateFaceMatcher` calls. -/
inductive ReachableMatcher : MatcherState → Prop where
  | init : ReachableMatcher initialMatcherState
  | step (loaded : Bool) (profiles : List PersonProfile) (threshold : ℚ)
      {s : MatcherState} :
      ReachableMatcher s → ReachableMatcher (updateFaceMatcher loaded s profiles threshold)

/-- The matcher handle flattened into `(label, vector)` pairs, in first-seen
order: each labeled set contributes its vectors in order. -/
def flattenHandle (lds : List LabeledDescriptors) : List (String × List ℚ) :=
  lds.flatMap fun ld => ld.vectors.map fun v => (ld.label, v)

/-- Modelled from the spec: `faceapi.FaceMatcher.findBestMatch` is external
CDN library code absent from this repository; per the spec it returns the
minimum distance from the probe to every stored labeled vector together with
the owning identity's label, ties broken by first-seen order in the flattened
set. The distance function is an opaque parameter (the spec treats feature
numerics as an opaque capability); on an empty handle a sentinel is returned
(unreachable for matchers the code builds). -/
def findBestMatch (dist : List ℚ → List ℚ → ℚ) (lds : List LabeledDescriptors)
    (probe : List ℚ) : String × ℚ :=
  match flattenHandle lds with
  | [] => ("unknown", 1)
  | lv :: rest =>
    rest.foldl
      (fun best lv2 => if dist probe lv2.2 < best.2 then (lv2.1, dist probe lv2.2) else best)
      (lv.1, dist probe lv.2)

/-- The per-face identification step of `detectFacesReal` (lines 204–219):
with no matcher the face stays `Unknown` at confidence 0; otherwise the best
match is looked up and either accepted (`distance < threshold`, confidence
`floor(max(0, 1 - d/threshold) * 100)`) or rejected (confidence
`floor((1 - min(1, d)) * 100)`). -/
def classifyDescriptor (dist : List ℚ → List ℚ → ℚ) (matcher : Option FaceMatcher)
    (threshold : ℚ) (probe : List ℚ) : MatchResult :=
  match matcher with
  | none => { identified := false, name := "Unknown", confidence := 0 }
  | some fm =>
    let bestMatch := findBestMatch dist fm.labeled probe
    if bestMatch.2 < threshold then
      { identified := true
        name := bestMatch.1
        confidence := ⌊max 0 (1 - bestMatch.2 / threshold) * 100⌋ }
    else
      { identified := false
        name := "Unknown"
        confidence := ⌊(1 - min 1 bestMatch.2) * 100⌋ }

/-! ## Resilient Resource Loader (`loadModels`) -/

/-- The configured `CONFIG.MODEL_URLS`: the priority list of model sources. -/
def MODEL_URLS : List String :=
  ["https://cdn.jsdelivr.net/gh/cgarciagl/face-api.js@0.22.2/weights",
   "https://justadudewhohacks.github.io/face-api.js/models",
   "https://cdn.jsdelivr.net/gh/justadudewhohacks/face-api.js@master/weights"]

/-- Walk the source list in priority order under an outcome environment
(`outcome url = true` means the critical models load from `url` within the
timeout; a timeout counts as failure). Returns the first succeeding source,
if any, paired with the list of sources attempted, in order. -/
def tryUrls (outcome : String → Bool) : List String → Option String × List String
  | [] => (none, [])
  | u :: rest =>
    if outcome u then (some u, [u])
    else
      let r := tryUrls outcome rest
      (r.1, u :: r.2)

/-- The loader's module-level singleton state: the two readiness flags and the
cached in-flight promise (identified by an id drawn from a counter, so that
"the very same promise object" is expressible). -/
structure LoaderState where
  critical : Bool
  demographics : Bool
  inflight : Option ℕ
  nextPromiseId : ℕ
deriving DecidableEq, Repr

/-- The loader state at module load. -/
def initialLoaderState : LoaderState :=
  { critical := false, demographics := false, inflight := none, nextPromiseId := 0 }

/-- What a `loadModels()` call hands back to its caller. -/
inductive LoadReturn where
  /-- `Promise.resolve(b)`: an immediately resolved promise (checks 0 and 1). -/
  | resolvedImmediate (b : Bool)
  /-- The cached `loadingPromise` already in flight (check 2). -/
  | existingPromise (id : ℕ)
  /-- A freshly created promise and the value it resolves to (check 3). -/
  | newPromise (id : ℕ) (value : Bool)
deriving DecidableEq, Repr

/-- The loader entry point `loadModels()` as one atomic call under outcome environments `outcome`
(critical tier per source) and `demoOutcome` (optional tier per source);
`faceapiDefined` is check 0. Returns what the caller receives, the list of
sources attempted by this call, and the state after the acquisition body (if
any) has run to completion: on success the critical flag is set and the
optional tier is attempted in the background against the same source; on
exhaustion the in-flight promise is cleared so a later call starts over. -/
def loadModelsCall (outcome demoOutcome : String → Bool) (faceapiDefined : Bool)
    (s : LoaderState) : LoadReturn × List String × LoaderState :=
  if !faceapiDefined then (.resolvedImmediate false, [], s)
  else if s.critical then (.resolvedImmediate true, [], s)
  else
    match s.inflight with
    | some id => (.existingPromise id, [], s)
    | none =>
      let id := s.nextPromiseId
      let r := tryUrls outcome MODEL_URLS
      match r.1 with
      | some url =>
        (.newPromise id true, r.2,
         { critical := true, demographics := demoOutcome url,
           inflight := some id, nextPromiseId := id + 1 })
      | none =>
        (.newPromise id false, r.2,
         { critical := false, demographics := s.demographics,
           inflight := none, nextPromiseId := id + 1 })

/-! ## Concrete sample data used by the witnesses -/

/-- Sample event: "alice" recognized at time 0 (witness data). -/
def evAlice0 : RecognitionLog :=
  { id := "1", timestamp := 0, personName := "alice", confidence := 90,
    isUnknown := false }

/-- Sample event: "alice" recognized again at 750 ms (witness data). -/
def evAlice750 : RecognitionLog :=
  { id := "2", timestamp := 750, personName := "alice", confidence := 90,
    isUnknown := false }

/-- Sample event: "alice" recognized again at 2250 ms (witness data). -/
def evAlice2250 : RecognitionLog :=
  { id := "3", timestamp := 2250, personName := "alice", confidence := 90,
    isUnknown := false }

/-- Sample event: "bob" recognized at 100 ms (witness data). -/
def evBob100 : RecognitionLog :=
  { id := "4", timestamp := 100, personName := "bob", confidence := 80,
    isUnknown := false }

/-- A concrete reachable cache state holding a matcher for "alice" built from
one descriptor (witness data). -/
def aliceProfile : PersonProfile :=
  { id := "i1", name := "alice", images := ["img"], createdAt := 0,
    descriptors := [[1, 2]] }

/-- A different profile collection with the same total descriptor count but a
different identity and vector (witness data). -/
def bobProfile : PersonProfile :=
  { id := "i2", name := "bob", images := ["img2"], createdAt := 5,
    descriptors := [[3, 4]] }

/-- The cache state after building a matcher for `aliceProfile` at
threshold 1 (witness data). -/
def aliceMatcherState : MatcherState :=
  { faceMatcher := some { labeled := [{ label := "alice", vectors := [[1, 2]] }],
                          threshold := 1 }
    lastDescriptorCount := 1 }

/-- A one-identity matcher handle used as witness data. -/
def witnessMatcher : FaceMatcher :=
  { labeled := [{ label := "alice", vectors := [[1, 2]] }], threshold := 1 }

/-! ## Helper lemmas -/

/-- A `splice(index, 1)` with an index at or past the length removes nothing. -/
lemma spliceRemoveOne_of_length_le {α : Type} (l : List α) (idx : ℤ)
    (h : (l.length : ℤ) ≤ idx) : spliceRemoveOne l idx = l := by
  have h0 : ¬ idx < 0 := by
    have : (0 : ℤ) ≤ (l.length : ℤ) := Int.natCast_nonneg _
    omega
  have hmin : min idx (l.length : ℤ) = (l.length : ℤ) := min_eq_right h
  have htn : (min idx (l.length : ℤ)).toNat = l.length := by
    rw [hmin]; exact Int.toNat_natCast _
  simp only [spliceRemoveOne, if_neg h0, htn]
  rw [List.take_length, List.drop_eq_nil_of_le (by omega), List.append_nil]

/-- A `splice(-1, 1)` removes the last element (no-op on an empty array). -/
lemma spliceRemoveOne_neg_one {α : Type} (l : List α) :
    spliceRemoveOne l (-1) = l.dropLast := by
  have h0 : (-1 : ℤ) < 0 := by norm_num
  cases l with
  | nil => rfl
  | cons a t =>
    have hlen : ((a :: t).length : ℤ) + (-1) = (t.length : ℤ) := by
      simp [List.length_cons]
    have hmax : max (((a :: t).length : ℤ) + (-1)) 0 = (t.length : ℤ) := by
      rw [hlen]; exact max_eq_left (Int.natCast_nonneg _)
    have htn : (max (((a :: t).length : ℤ) + (-1)) 0).toNat = t.length := by
      rw [hmax]; exact Int.toNat_natCast _
    simp only [spliceRemoveOne, if_pos h0, htn]
    rw [List.dropLast_eq_take]
    have hdrop : (a :: t).drop (t.length + 1) = [] :=
      List.drop_eq_nil_of_le (by simp)
    rw [hdrop, List.append_nil]
    simp [List.length_cons]

/-! ## C4 and C10: out-of-range and negative-index sample removal -/

/-- C4 counterexample: `removeSampleFromProfile` at the out-of-range index 5 on
a profile with one image and one descriptor returns the profile collection
unchanged and signals nothing (its type has no error channel), so the removal
is not rejected at the Descriptor Store boundary — it is silently ignored. -/
theorem removeSample_out_of_range_silent_noop :
    removeSampleFromProfile
      [{ id := "p1", name := "A", images := ["img0"], createdAt := 0,
         descriptors := [[1]] }] "p1" 5 =
      [{ id := "p1", name := "A", images := ["img0"], createdAt := 0,
         descriptors := [[1]] }] := by
  decide

/-- C4 (amended): an out-of-range removal — an index at or past the length of
both the image list and the descriptor list of every profile with the given
id — is a deterministic silent no-op: the collection is returned unchanged and
no error is signalled. -/
theorem removeSample_out_of_range_behavior (profiles : List PersonProfile)
    (pid : String) (idx : ℤ)
    (h : ∀ p ∈ profiles, p.id = pid →
      (p.images.length : ℤ) ≤ idx ∧ (p.descriptors.length : ℤ) ≤ idx) :
    removeSampleFromProfile profiles pid idx = profiles := by
  unfold removeSampleFromProfile
  have : ∀ p ∈ profiles,
      (if p.id = pid then
        { p with
          images := spliceRemoveOne p.images idx
          descriptors := spliceRemoveOne p.descriptors idx }
      else p) = p := by
    intro p hp
    by_cases hid : p.id = pid
    · have h2 := h p hp hid
      simp only [if_pos hid, spliceRemoveOne_of_length_le p.images idx h2.1,
        spliceRemoveOne_of_length_le p.descriptors idx h2.2]
    · simp only [if_neg hid]
  exact List.map_congr_left this ▸ List.map_id profiles

/-- Witness for the amended C4 at a concrete store and index. -/
theorem removeSample_out_of_range_behavior_witness :
    removeSampleFromProfile
      [{ id := "p1", name := "A", images := ["a", "b"], createdAt := 0,
         descriptors := [[1], [2]] }] "p1" 7 =
      [{ id := "p1", name := "A", images := ["a", "b"], createdAt := 0,
         descriptors := [[1], [2]] }] :=
  removeSample_out_of_range_behavior _ _ _ (by decide)

/-- C10 counterexample: on a profile holding one image but zero descriptors
(as `addProfile` creates when registration supplies no vector), index 0 is at
or past the descriptor count, yet the call does **not** leave the collection
unchanged — the image list loses its element, because the two sequences are
spliced independently. -/
theorem removeSample_descriptor_range_not_enough :
    ((({ id := "p1", name := "A", images := ["img0"], createdAt := 0,
         descriptors := [] } : PersonProfile).descriptors.length : ℤ) ≤ 0) ∧
    removeSampleFromProfile
      [{ id := "p1", name := "A", images := ["img0"], createdAt := 0,
         descriptors := [] }] "p1" 0 ≠
      [{ id := "p1", name := "A", images := ["img0"], createdAt := 0,
         descriptors := [] }] := by
  decide

/-- C10 (amended): an index at or past the length of **both** sequences of
every matching profile leaves the collection completely unchanged (silent
no-op, no error signal); index −1 follows JavaScript splice semantics and
deletes each matching profile's last image and last descriptor (removing
nothing from a sequence that is already empty). -/
theorem removeSample_splice_semantics :
    (∀ (profiles : List PersonProfile) (pid : String) (idx : ℤ),
      (∀ p ∈ profiles, p.id = pid →
        (p.images.length : ℤ) ≤ idx ∧ (p.descriptors.length : ℤ) ≤ idx) →
      removeSampleFromProfile profiles pid idx = profiles) ∧
    (∀ (profiles : List PersonProfile) (pid : String),
      removeSampleFromProfile profiles pid (-1) =
        profiles.map fun p =>
          if p.id = pid then
            { p with images := p.images.dropLast,
                     descriptors := p.descriptors.dropLast }
          else p) := by
  constructor
  · intro profiles pid idx h
    unfold removeSampleFromProfile
    have : ∀ p ∈ profiles,
        (if p.id = pid then
          { p with
            images := spliceRemoveOne p.images idx
            descriptors := spliceRemoveOne p.descriptors idx }
        else p) = p := by
      intro p hp
      by_cases hid : p.id = pid
      · have h2 := h p hp hid
        simp only [if_pos hid, spliceRemoveOne_of_length_le p.images idx h2.1,
          spliceRemoveOne_of_length_le p.descriptors idx h2.2]
      · simp only [if_neg hid]
    exact List.map_congr_left this ▸ List.map_id profiles
  · intro profiles pid
    unfold removeSampleFromProfile
    refine List.map_congr_left ?_
    intro p _
    by_cases hid : p.id = pid
    · simp only [if_pos hid, spliceRemoveOne_neg_one]
    · simp only [if_neg hid]

/-- Witness for C10's amended statement at a concrete store: index 3 is past
both sequences (no-op) and index −1 deletes the last image/descriptor pair. -/
theorem removeSample_splice_semantics_witness :
    removeSampleFromProfile
      [{ id := "p1", name := "A", images := ["a", "b"], createdAt := 0,
         descriptors := [[1], [2]] }] "p1" 3 =
      [{ id := "p1", name := "A", images := ["a", "b"], createdAt := 0,
         descriptors := [[1], [2]] }] ∧
    removeSampleFromProfile
      [{ id := "p1", name := "A", images := ["a", "b"], createdAt := 0,
         descriptors := [[1], [2]] }] "p1" (-1) =
      [{ id := "p1", name := "A", images := ["a"], createdAt := 0,
         descriptors := [[1]] }] := by
  constructor
  · exact removeSample_splice_semantics.1 _ _ _ (by decide)
  · rw [removeSample_splice_semantics.2]
    decide

/-! ## C5: the debounce window -/

/-- C5: with any positive window `w`, a second same-name event arriving half a
window after the first is suppressed (`debounceHit` is true and `addLog`
leaves the log unchanged); a same-name event arriving one-and-a-half windows
later is admitted alongside the first; and the suppression decision depends
only on the most recent admitted event (the head of the log). -/
theorem addLog_debounce_window (w : ℚ) (hw : 0 < w) (t : ℚ)
    (e1 e2 e3 : RecognitionLog)
    (hn2 : e2.personName = e1.personName) (_hn3 : e3.personName = e1.personName)
    (ht1 : e1.timestamp = t) (ht2 : e2.timestamp = t + w / 2)
    (ht3 : e3.timestamp = t + 3 * w / 2) :
    (debounceHit w e2 [e1] = true ∧ addLog w e2 [e1] = [e1]) ∧
    (debounceHit w e3 [e1] = false ∧ addLog w e3 [e1] = [e3, e1]) ∧
    (∀ (e : RecognitionLog) (p1 p2 : List RecognitionLog),
      p1.head? = p2.head? → debounceHit w e p1 = debounceHit w e p2) := by
  have hd2 : debounceHit w e2 [e1] = true := by
    simp only [debounceHit, decide_eq_true_eq]
    refine ⟨hn2.symm, ?_⟩
    rw [ht1, ht2]; linarith
  have hd3 : debounceHit w e3 [e1] = false := by
    simp only [debounceHit, decide_eq_false_iff_not, not_and]
    intro _
    rw [ht1, ht3]; intro hlt; linarith
  refine ⟨⟨hd2, ?_⟩, ⟨hd3, ?_⟩, ?_⟩
  · simp [addLog, hd2]
  · simp [addLog, hd3]
  · intro e p1 p2 h
    cases p1 with
    | nil =>
      cases p2 with
      | nil => rfl
      | cons b t2 => simp [List.head?] at h
    | cons a t1 =>
      cases p2 with
      | nil => simp [List.head?] at h
      | cons b t2 =>
        simp only [List.head?, Option.some.injEq] at h
        simp [debounceHit, h]

/-- Witness for C5 at window 1500 ms: events at 0 and 750 collapse to one log
entry, events at 0 and 2250 are both kept. -/
theorem addLog_debounce_window_witness :
    (debounceHit 1500 evAlice750 [evAlice0] = true ∧
     addLog 1500 evAlice750 [evAlice0] = [evAlice0]) ∧
    (debounceHit 1500 evAlice2250 [evAlice0] = false ∧
     addLog 1500 evAlice2250 [evAlice0] = [evAlice2250, evAlice0]) :=
  ⟨(addLog_debounce_window 1500 (by norm_num) 0 evAlice0 evAlice750 evAlice2250
      rfl rfl rfl (by norm_num [evAlice750]) (by norm_num [evAlice2250])).1,
   (addLog_debounce_window 1500 (by norm_num) 0 evAlice0 evAlice750 evAlice2250
      rfl rfl rfl (by norm_num [evAlice750]) (by norm_num [evAlice2250])).2.1⟩

/-! ## C9: bounded newest-first history -/

/-- C9: every admitted event is prepended at the front of the log (on top of
the first 199 old entries), every log state reachable through `addLog` has at
most 200 entries, and admitting an event into a full 200-entry log evicts
exactly the oldest (last) entry. -/
theorem addLog_bounded_history :
    (∀ (w : ℚ) (e : RecognitionLog) (prev : List RecognitionLog),
      debounceHit w e prev = false → addLog w e prev = e :: prev.take 199) ∧
    (∀ l : List RecognitionLog, ReachableLog l → l.length ≤ 200) ∧
    (∀ (w : ℚ) (e : RecognitionLog) (prev : List RecognitionLog),
      prev.length = 200 → debounceHit w e prev = false →
      addLog w e prev = e :: prev.dropLast) := by
  have hpre : ∀ (w : ℚ) (e : RecognitionLog) (prev : List RecognitionLog),
      debounceHit w e prev = false → addLog w e prev = e :: prev.take 199 := by
    intro w e prev h
    simp [addLog, h, List.take_succ_cons]
  refine ⟨hpre, ?_, ?_⟩
  · intro l hl
    induction hl with
    | nil => simp
    | step log hl ih =>
      simp only [addLog]
      split
      · exact ih
      · simp [List.length_take]
  · intro w e prev hlen h
    rw [hpre w e prev h, List.dropLast_eq_take, hlen]

/-- Witness for C9: admitting a differently-named event into a full log of 200
identical entries keeps the cap by dropping the oldest entry. -/
theorem addLog_bounded_history_witness :
    addLog 1500 evBob100 (List.replicate 200 evAlice0) =
      evBob100 :: (List.replicate 200 evAlice0).dropLast :=
  addLog_bounded_history.2.2 1500 evBob100 (List.replicate 200 evAlice0)
    (List.length_replicate 200 evAlice0) (by decide)

/-- The `reduce`-computed staleness key is the sum of the per-profile
descriptor counts. -/
lemma totalDescriptorCount_eq_sum (ps : List PersonProfile) :
    totalDescriptorCount ps = (ps.map fun p => p.descriptors.length).sum := by
  suffices h : ∀ acc : ℕ, ps.foldl (fun a p => a + p.descriptors.length) acc =
      acc + (ps.map fun p => p.descriptors.length).sum by
    simpa [totalDescriptorCount] using h 0
  induction ps with
  | nil => intro acc; simp
  | cons p t ih =>
    intro acc
    simp only [List.foldl_cons, List.map_cons, List.sum_cons, ih]
    omega

/-- The labeled descriptor list is empty exactly when the total vector count
is zero, i.e. when no profile holds a descriptor. -/
lemma buildLabeledDescriptors_eq_nil_iff (ps : List PersonProfile) :
    buildLabeledDescriptors ps = [] ↔ totalDescriptorCount ps = 0 := by
  rw [totalDescriptorCount_eq_sum]
  unfold buildLabeledDescriptors
  simp only [List.map_eq_nil_iff, List.filter_eq_nil_iff, decide_eq_true_eq,
    List.sum_eq_zero_iff, List.mem_map]
  constructor
  · rintro h x ⟨p, hp, rfl⟩
    have := h p hp
    omega
  · intro h p hp
    have := h p.descriptors.length ⟨p, hp, rfl⟩
    omega

/-- Invariant of every reachable matcher-cache state: a matcher is cached
exactly when the recorded count is at least one (at module load the count is
−1 and no matcher exists; a rebuild at count 0 caches `null`). -/
lemma reachableMatcher_isSome_iff (s : MatcherState) (hs : ReachableMatcher s) :
    s.faceMatcher.isSome = true ↔ 1 ≤ s.lastDescriptorCount := by
  induction hs with
  | init => simp [initialMatcherState]
  | step loaded profiles threshold hs ih =>
    rename_i s
    unfold updateFaceMatcher
    by_cases hl : loaded = true
    · rw [hl]
      by_cases hc : (totalDescriptorCount profiles : ℤ) = s.lastDescriptorCount
          ∧ s.faceMatcher.isSome
      · simpa [hc] using ih
      · simp only [Bool.not_true, Bool.false_eq_true, if_false, if_neg hc]
        by_cases hb : 0 < (buildLabeledDescriptors profiles).length
        · simp only [if_pos hb]
          have : totalDescriptorCount profiles ≠ 0 := by
            intro h0
            rw [(buildLabeledDescriptors_eq_nil_iff profiles).2 h0] at hb
            simp at hb
          simp only [Option.isSome_some, true_iff]
          exact_mod_cast Nat.one_le_iff_ne_zero.mpr this
        · simp only [if_neg hb]
          have : buildLabeledDescriptors profiles = [] := by
            cases hh : buildLabeledDescriptors profiles with
            | nil => rfl
            | cons a t => rw [hh] at hb; simp at hb
          have h0 : totalDescriptorCount profiles = 0 :=
            (buildLabeledDescriptors_eq_nil_iff profiles).1 this
          simp only [Option.isSome_none, false_iff, h0]
          norm_num
    · have : loaded = false := by simpa using hl
      rw [this]
      simpa using ih

/-! ## C3: staleness is keyed on the total vector count alone -/

/-- C3: on every reachable matcher-cache state, `updateFaceMatcher` changes
the state (rebuilds) exactly when the total descriptor count differs from the
count recorded at the last build; in particular, when the count is equal and
a matcher is cached the call returns with the cache untouched, for **every**
profile collection and threshold — so changed contents or a changed threshold
go unnoticed when the count is unchanged. -/
theorem matcherCache_rebuild_iff (s : MatcherState) (hs : ReachableMatcher s)
    (profiles : List PersonProfile) (threshold : ℚ) :
    ((totalDescriptorCount profiles : ℤ) = s.lastDescriptorCount ∧
        s.faceMatcher.isSome = true →
      updateFaceMatcher true s profiles threshold = s) ∧
    (updateFaceMatcher true s profiles threshold ≠ s ↔
      (totalDescriptorCount profiles : ℤ) ≠ s.lastDescriptorCount) := by
  have hcached : (totalDescriptorCount profiles : ℤ) = s.lastDescriptorCount ∧
      s.faceMatcher.isSome = true →
      updateFaceMatcher true s profiles threshold = s := by
    intro h
    unfold updateFaceMatcher
    simp only [Bool.not_true, Bool.false_eq_true, if_false]
    rw [if_pos ⟨h.1, h.2⟩]
  refine ⟨hcached, not_congr ?_ |>.symm⟩
  · constructor
    · intro heq
      by_cases hsome : s.faceMatcher.isSome = true
      · exact hcached ⟨heq, hsome⟩
      · have hnotle : ¬ 1 ≤ s.lastDescriptorCount := fun hle =>
          hsome ((reachableMatcher_isSome_iff s hs).2 hle)
        have hcount0 : totalDescriptorCount profiles = 0 := by omega
        have hbuild : buildLabeledDescriptors profiles = [] :=
          (buildLabeledDescriptors_eq_nil_iff profiles).2 hcount0
        have hnone : s.faceMatcher = none := by
          cases hfm : s.faceMatcher with
          | none => rfl
          | some m => rw [hfm] at hsome; simp at hsome
        unfold updateFaceMatcher
        simp only [Bool.not_true, Bool.false_eq_true, if_false, hbuild]
        rw [if_neg (by rw [hnone]; simp)]
        simp only [List.length_nil, lt_self_iff_false, if_false]
        cases s with
        | mk fm last =>
          simp only [MatcherState.mk.injEq]
          simp only at hnone heq
          exact ⟨hnone.symm, heq⟩
    · intro hlast
      have : (updateFaceMatcher true s profiles threshold).lastDescriptorCount
          = s.lastDescriptorCount := by rw [hlast]
      by_contra hne
      rw [updateFaceMatcher] at this
      simp only [Bool.not_true, Bool.false_eq_true, if_false] at this
      rw [if_neg (fun hconj => hne hconj.1)] at this
      simp only at this
      exact hne this

/-- Witness for C3: replacing alice's whole profile by bob's and changing the
threshold, while keeping the total count at 1, leaves the cached alice
matcher in place. -/
theorem matcherCache_rebuild_iff_witness :
    updateFaceMatcher true aliceMatcherState [bobProfile] 2 = aliceMatcherState :=
  (matcherCache_rebuild_iff aliceMatcherState
      (show ReachableMatcher aliceMatcherState from
        ReachableMatcher.step true [aliceProfile] 1 ReachableMatcher.init)
      [bobProfile] 2).1 ⟨by decide, by decide⟩

/-! ## C7: zero identities with vectors means "everything unknown" -/

/-- C7: from any reachable cache state, updating against a profile collection
in which no profile holds a descriptor yields the explicit no-matcher state
(`null`), and against that handle every probe vector classifies as not
identified, name "Unknown", confidence 0 — an ordinary result, not an error. -/
theorem noVectors_all_unknown (s : MatcherState) (hs : ReachableMatcher s)
    (profiles : List PersonProfile) (threshold : ℚ)
    (hempty : ∀ p ∈ profiles, p.descriptors = []) :
    (updateFaceMatcher true s profiles threshold).faceMatcher = none ∧
    ∀ (dist : List ℚ → List ℚ → ℚ) (probe : List ℚ),
      classifyDescriptor dist
          (updateFaceMatcher true s profiles threshold).faceMatcher threshold probe =
        { identified := false, name := "Unknown", confidence := 0 } := by
  have hcount0 : totalDescriptorCount profiles = 0 := by
    rw [totalDescriptorCount_eq_sum, List.sum_eq_zero_iff]
    intro x hx
    rw [List.mem_map] at hx
    obtain ⟨p, hp, rfl⟩ := hx
    rw [hempty p hp]
    rfl
  have hbuild : buildLabeledDescriptors profiles = [] :=
    (buildLabeledDescriptors_eq_nil_iff profiles).2 hcount0
  have hnone : (updateFaceMatcher true s profiles threshold).faceMatcher = none := by
    unfold updateFaceMatcher
    simp only [Bool.not_true, Bool.false_eq_true, if_false]
    by_cases hc : (totalDescriptorCount profiles : ℤ) = s.lastDescriptorCount
        ∧ s.faceMatcher.isSome
    · exfalso
      have h1 : 1 ≤ s.lastDescriptorCount :=
        (reachableMatcher_isSome_iff s hs).1 hc.2
      have := hc.1
      omega
    · rw [if_neg hc]
      simp [hbuild]
  refine ⟨hnone, ?_⟩
  intro dist probe
  rw [hnone]
  rfl

/-- Witness for C7: updating the freshly loaded cache against one profile
with zero descriptors builds no matcher, and a sample probe stays Unknown at
confidence 0. -/
theorem noVectors_all_unknown_witness :
    (updateFaceMatcher true initialMatcherState
        [{ id := "p1", name := "A", images := ["img"], createdAt := 0,
           descriptors := [] }] 1).faceMatcher = none ∧
    classifyDescriptor (fun _ _ => 5)
        (updateFaceMatcher true initialMatcherState
          [{ id := "p1", name := "A", images := ["img"], createdAt := 0,
             descriptors := [] }] 1).faceMatcher 1 [7] =
      { identified := false, name := "Unknown", confidence := 0 } :=
  ⟨(noVectors_all_unknown initialMatcherState ReachableMatcher.init _ 1
      (by decide)).1,
   (noVectors_all_unknown initialMatcherState ReachableMatcher.init _ 1
      (by decide)).2 (fun _ _ => 5) [7]⟩

/-! ## C1 and C8: the classification of one probe vector -/

/-- The best-match fold either keeps its starting pair or lands on one of the
scanned `(label, vector)` pairs, and its distance component is a lower bound
of the start and of every scanned distance (strict comparison keeps the
first-seen pair on ties). -/
lemma bestFoldl_spec (dist : List ℚ → List ℚ → ℚ) (probe : List ℚ)
    (l : List (String × List ℚ)) (b : String × ℚ) :
    (l.foldl (fun best lv2 => if dist probe lv2.2 < best.2
        then (lv2.1, dist probe lv2.2) else best) b = b ∨
      ∃ lv ∈ l, l.foldl (fun best lv2 => if dist probe lv2.2 < best.2
        then (lv2.1, dist probe lv2.2) else best) b = (lv.1, dist probe lv.2)) ∧
    (l.foldl (fun best lv2 => if dist probe lv2.2 < best.2
        then (lv2.1, dist probe lv2.2) else best) b).2 ≤ b.2 ∧
    ∀ lv ∈ l, (l.foldl (fun best lv2 => if dist probe lv2.2 < best.2
        then (lv2.1, dist probe lv2.2) else best) b).2 ≤ dist probe lv.2 := by
  induction l generalizing b with
  | nil => exact ⟨Or.inl rfl, le_refl _, by simp⟩
  | cons x t ih =>
    simp only [List.foldl_cons]
    obtain ⟨ihA, ihB, ihC⟩ := ih (if dist probe x.2 < b.2
      then (x.1, dist probe x.2) else b)
    by_cases hx : dist probe x.2 < b.2
    · rw [if_pos hx] at ihA ihB ihC ⊢
      refine ⟨?_, ?_, ?_⟩
      · rcases ihA with he | ⟨lv, hlv, he⟩
        · exact Or.inr ⟨x, List.mem_cons_self x t, he⟩
        · exact Or.inr ⟨lv, List.mem_cons_of_mem x hlv, he⟩
      · exact le_trans ihB (le_of_lt hx)
      · intro lv hlv
        rcases List.mem_cons.1 hlv with rfl | hmem
        · exact ihB
        · exact ihC lv hmem
    · rw [if_neg hx] at ihA ihB ihC ⊢
      refine ⟨?_, ihB, ?_⟩
      · rcases ihA with he | ⟨lv, hlv, he⟩
        · exact Or.inl he
        · exact Or.inr ⟨lv, List.mem_cons_of_mem x hlv, he⟩
      · intro lv hlv
        rcases List.mem_cons.1 hlv with rfl | hmem
        · exact le_trans ihB (le_of_not_lt hx)
        · exact ihC lv hmem

/-- On a non-empty handle, `findBestMatch` returns a pair from the flattened
labeled set achieving the minimum probe distance: the witness pair exists and
its distance is a lower bound of every stored distance. -/
lemma findBestMatch_spec (dist : List ℚ → List ℚ → ℚ)
    (lds : List LabeledDescriptors) (probe : List ℚ)
    (h : flattenHandle lds ≠ []) :
    (∃ lv ∈ flattenHandle lds,
        findBestMatch dist lds probe = (lv.1, dist probe lv.2)) ∧
    ∀ lv ∈ flattenHandle lds,
        (findBestMatch dist lds probe).2 ≤ dist probe lv.2 := by
  obtain ⟨hd, tl, hfl⟩ := List.exists_cons_of_ne_nil h
  have hfold : findBestMatch dist lds probe =
      tl.foldl (fun best lv2 => if dist probe lv2.2 < best.2
        then (lv2.1, dist probe lv2.2) else best) (hd.1, dist probe hd.2) := by
    unfold findBestMatch
    rw [hfl]
  obtain ⟨hA, hB, hC⟩ := bestFoldl_spec dist probe tl (hd.1, dist probe hd.2)
  rw [hfl, hfold]
  refine ⟨?_, ?_⟩
  · rcases hA with he | ⟨lv, hlv, he⟩
    · exact ⟨hd, List.mem_cons_self hd tl, he⟩
    · exact ⟨lv, List.mem_cons_of_mem hd hlv, he⟩
  · intro lv hlv
    rcases List.mem_cons.1 hlv with rfl | hmem
    · exact hB
    · exact hC lv hmem

/-- C1: against a non-empty matcher handle, the best match is a stored
labeled vector of minimum distance to the probe; when that distance is below
the threshold the face is identified under the owning label with confidence
`⌊max 0 (1 - d/threshold) * 100⌋`, otherwise it stays "Unknown" with
confidence `⌊max 0 (1 - min 1 d) * 100⌋` (the clip at zero is implied:
`1 - min 1 d` is never negative). -/
theorem classify_best_match (dist : List ℚ → List ℚ → ℚ) (fm : FaceMatcher)
    (threshold : ℚ) (probe : List ℚ) (h : flattenHandle fm.labeled ≠ []) :
    (∃ lv ∈ flattenHandle fm.labeled,
        findBestMatch dist fm.labeled probe = (lv.1, dist probe lv.2)) ∧
    (∀ lv ∈ flattenHandle fm.labeled,
        (findBestMatch dist fm.labeled probe).2 ≤ dist probe lv.2) ∧
    ((findBestMatch dist fm.labeled probe).2 < threshold →
      classifyDescriptor dist (some fm) threshold probe =
        { identified := true
          name := (findBestMatch dist fm.labeled probe).1
          confidence :=
            ⌊max 0 (1 - (findBestMatch dist fm.labeled probe).2 / threshold) * 100⌋ }) ∧
    (threshold ≤ (findBestMatch dist fm.labeled probe).2 →
      classifyDescriptor dist (some fm) threshold probe =
        { identified := false
          name := "Unknown"
          confidence :=
            ⌊max 0 (1 - min 1 (findBestMatch dist fm.labeled probe).2) * 100⌋ }) := by
  obtain ⟨hex, hmin⟩ := findBestMatch_spec dist fm.labeled probe h
  refine ⟨hex, hmin, ?_, ?_⟩
  · intro hlt
    show (if (findBestMatch dist fm.labeled probe).2 < threshold then _ else _) = _
    rw [if_pos hlt]
  · intro hge
    show (if (findBestMatch dist fm.labeled probe).2 < threshold then _ else _) = _
    rw [if_neg (not_lt.2 hge)]
    have h0 : (0 : ℚ) ≤ 1 - min 1 (findBestMatch dist fm.labeled probe).2 := by
      have := min_le_left (1 : ℚ) (findBestMatch dist fm.labeled probe).2
      linarith
    rw [max_eq_right h0]

/-- Witness for C1: with distance function "head of the stored vector", the
probe matches alice's vector `[1, 2]` at distance 1 < threshold 2 and is
identified as alice with confidence `⌊(1 - 1/2) * 100⌋ = 50`. -/
theorem classify_best_match_witness :
    classifyDescriptor (fun _ v => v.headD 0) (some witnessMatcher) 2 [] =
      { identified := true, name := "alice", confidence := 50 } := by
  have hbm : findBestMatch (fun _ v => v.headD 0) witnessMatcher.labeled [] =
      ("alice", 1) := rfl
  have h3 := (classify_best_match (fun _ v => v.headD 0) witnessMatcher 2 []
    (by decide)).2.2.1
  rw [hbm] at h3
  rw [h3 (by norm_num)]
  norm_num

/-- Under a nonnegative distance function (Euclidean distances are
nonnegative) the best-match distance is nonnegative. -/
lemma findBestMatch_snd_nonneg (dist : List ℚ → List ℚ → ℚ)
    (lds : List LabeledDescriptors) (probe : List ℚ)
    (hd : ∀ v, 0 ≤ dist probe v) :
    0 ≤ (findBestMatch dist lds probe).2 := by
  by_cases h : flattenHandle lds = []
  · unfold findBestMatch
    rw [h]
    norm_num
  · obtain ⟨lv, _, heq⟩ := (findBestMatch_spec dist lds probe h).1
    rw [heq]
    exact hd lv.2

/-- Floors of `x * 100` for `x ∈ [0, 1]` land in `[0, 100]`. -/
lemma floor_scale_bounds (x : ℚ) (h0 : 0 ≤ x) (h1 : x ≤ 1) :
    0 ≤ ⌊x * 100⌋ ∧ ⌊x * 100⌋ ≤ 100 := by
  constructor
  · exact Int.floor_nonneg.2 (by positivity)
  · have h100 : x * 100 ≤ 100 := by linarith
    have := Int.floor_le_floor h100
    simpa using this

/-- C8: whatever the matcher handle, the threshold and the (nonnegative)
distances — rejected matches, zero distance and distances above 1 included —
the reported confidence is an integer in `[0, 100]`. -/
theorem confidence_in_range (dist : List ℚ → List ℚ → ℚ)
    (matcher : Option FaceMatcher) (threshold : ℚ) (probe : List ℚ)
    (hd : ∀ v, 0 ≤ dist probe v) :
    0 ≤ (classifyDescriptor dist matcher threshold probe).confidence ∧
    (classifyDescriptor dist matcher threshold probe).confidence ≤ 100 := by
  cases matcher with
  | none => exact ⟨le_refl 0, show (0:ℤ) ≤ 100 by norm_num⟩
  | some fm =>
    have h0 : 0 ≤ (findBestMatch dist fm.labeled probe).2 :=
      findBestMatch_snd_nonneg dist fm.labeled probe hd
    show 0 ≤ (if (findBestMatch dist fm.labeled probe).2 < threshold
        then _ else _ : MatchResult).confidence ∧
      (if (findBestMatch dist fm.labeled probe).2 < threshold
        then _ else _ : MatchResult).confidence ≤ 100
    by_cases hlt : (findBestMatch dist fm.labeled probe).2 < threshold
    · rw [if_pos hlt]
      have ht : 0 < threshold := lt_of_le_of_lt h0 hlt
      have hx0 : (0 : ℚ) ≤ max 0 (1 - (findBestMatch dist fm.labeled probe).2 / threshold) :=
        le_max_left 0 _
      have hx1 : max 0 (1 - (findBestMatch dist fm.labeled probe).2 / threshold) ≤ 1 := by
        have hdiv : 0 ≤ (findBestMatch dist fm.labeled probe).2 / threshold :=
          div_nonneg h0 (le_of_lt ht)
        apply max_le (by norm_num)
        linarith
      exact floor_scale_bounds _ hx0 hx1
    · rw [if_neg hlt]
      have hm0 : (0 : ℚ) ≤ 1 - min 1 (findBestMatch dist fm.labeled probe).2 := by
        have := min_le_left (1 : ℚ) (findBestMatch dist fm.labeled probe).2
        linarith
      have hm1 : 1 - min 1 (findBestMatch dist fm.labeled probe).2 ≤ 1 := by
        have := le_min (by norm_num : (0:ℚ) ≤ 1) h0
        linarith
      exact floor_scale_bounds _ hm0 hm1

/-- Witness for C8: a constant distance 2 — above both the threshold 1 and
the clip point 1 — still yields a confidence inside `[0, 100]`. -/
theorem confidence_in_range_witness :
    0 ≤ (classifyDescriptor (fun _ _ => 2) (some witnessMatcher) 1 []).confidence ∧
    (classifyDescriptor (fun _ _ => 2) (some witnessMatcher) 1 []).confidence ≤ 100 :=
  confidence_in_range (fun _ _ => 2) (some witnessMatcher) 1 []
    (fun _ => by norm_num)

/-! ## C2 and C6: loader idempotence, deduplication and retry -/

/-- C2: with the library present, a call made when the critical tier is ready
returns an already-resolved `true` at once, attempting no source and leaving
the state untouched; and a call made while an acquisition is in flight
returns that very cached promise, attempting no source and leaving the state
untouched. -/
theorem loadModels_dedup (outcome demoOutcome : String → Bool) (s : LoaderState) :
    (s.critical = true →
      loadModelsCall outcome demoOutcome true s =
        (.resolvedImmediate true, [], s)) ∧
    (∀ id : ℕ, s.critical = false → s.inflight = some id →
      loadModelsCall outcome demoOutcome true s =
        (.existingPromise id, [], s)) := by
  constructor
  · intro hc
    simp [loadModelsCall, hc]
  · intro id hc hi
    simp [loadModelsCall, hc, hi]

/-- Witness for C2: a ready loader answers `true` with no attempts; a loading
loader hands back the cached promise (id 7). -/
theorem loadModels_dedup_witness :
    loadModelsCall (fun _ => false) (fun _ => false) true
      { critical := true, demographics := false, inflight := none,
        nextPromiseId := 3 } =
      (.resolvedImmediate true, [],
       { critical := true, demographics := false, inflight := none,
         nextPromiseId := 3 }) ∧
    loadModelsCall (fun _ => false) (fun _ => false) true
      { critical := false, demographics := false, inflight := some 7,
        nextPromiseId := 8 } =
      (.existingPromise 7, [],
       { critical := false, demographics := false, inflight := some 7,
         nextPromiseId := 8 }) :=
  ⟨(loadModels_dedup (fun _ => false) (fun _ => false) _).1 rfl,
   (loadModels_dedup (fun _ => false) (fun _ => false) _).2 7 rfl rfl⟩

/-- Walking a list of all-failing sources tries every source, in order,
and succeeds nowhere. -/
lemma tryUrls_all_fail (outcome : String → Bool) (l : List String)
    (hall : ∀ u ∈ l, outcome u = false) :
    tryUrls outcome l = (none, l) := by
  induction l with
  | nil => rfl
  | cons u rest ih =>
    unfold tryUrls
    rw [if_neg (by simp [hall u (List.mem_cons_self u rest)])]
    rw [ih fun v hv => hall v (List.mem_cons_of_mem u hv)]

/-- The first source attempted by the walk is the head of the source list,
whatever the outcomes. -/
lemma tryUrls_head (outcome : String → Bool) (u : String) (rest : List String) :
    (tryUrls outcome (u :: rest)).2.head? = some u := by
  unfold tryUrls
  by_cases h : outcome u
  · rw [if_pos h]
    rfl
  · rw [if_neg h]
    rfl

/-- C6: when every source of the priority list fails (or times out) for the
critical tier, the call creates a fresh promise that resolves `false` after
attempting all sources in order, and the post-state has the critical tier
unready and the in-flight promise cleared — so a subsequent call (any
outcomes) walks the source list afresh, its first attempt being source #1.
No permanent lockout. -/
theorem loadModels_retry (outcome demoOutcome outcome2 demoOutcome2 : String → Bool)
    (s : LoaderState) (hc : s.critical = false) (hi : s.inflight = none)
    (hall : ∀ u ∈ MODEL_URLS, outcome u = false) :
    loadModelsCall outcome demoOutcome true s =
      (.newPromise s.nextPromiseId false, MODEL_URLS,
       { critical := false, demographics := s.demographics, inflight := none,
         nextPromiseId := s.nextPromiseId + 1 }) ∧
    (loadModelsCall outcome2 demoOutcome2 true
        (loadModelsCall outcome demoOutcome true s).2.2).2.1 =
      (tryUrls outcome2 MODEL_URLS).2 ∧
    (tryUrls outcome2 MODEL_URLS).2.head? =
      some "https://cdn.jsdelivr.net/gh/cgarciagl/face-api.js@0.22.2/weights" := by
  have hfail : tryUrls outcome MODEL_URLS = (none, MODEL_URLS) :=
    tryUrls_all_fail outcome MODEL_URLS hall
  have hfirst : loadModelsCall outcome demoOutcome true s =
      (.newPromise s.nextPromiseId false, MODEL_URLS,
       { critical := false, demographics := s.demographics, inflight := none,
         nextPromiseId := s.nextPromiseId + 1 }) := by
    simp [loadModelsCall, hc, hi, hfail]
  refine ⟨hfirst, ?_, ?_⟩
  · rw [hfirst]
    show (loadModelsCall outcome2 demoOutcome2 true _).2.1 = _
    simp only [loadModelsCall]
    cases hmatch : (tryUrls outcome2 MODEL_URLS).1 with
    | none => simp [hmatch]
    | some url => simp [hmatch]
  · exact tryUrls_head outcome2 _ _

/-- Witness for C6: from the initial state with every source failing, the
call resolves `false` after trying all three sources and the loader is back
to a retryable state whose next walk starts at source #1. -/
theorem loadModels_retry_witness :
    loadModelsCall (fun _ => false) (fun _ => false) true initialLoaderState =
      (.newPromise 0 false, MODEL_URLS,
       { critical := false, demographics := false, inflight := none,
         nextPromiseId := 1 }) ∧
    (loadModelsCall (fun _ => true) (fun _ => true) true
        (loadModelsCall (fun _ => false) (fun _ => false) true
          initialLoaderState).2.2).2.1 =
      (tryUrls (fun _ => true) MODEL_URLS).2 ∧
    (tryUrls (fun _ => true) MODEL_URLS).2.head? =
      some "https://cdn.jsdelivr.net/gh/cgarciagl/face-api.js@0.22.2/weights" :=
  loadModels_retry (fun _ => false) (fun _ => false) (fun _ => true)
    (fun _ => true) initialLoaderState rfl rfl (fun _ _ => rfl)
